import Mathlib

/-!
Verification of the Solar_Module repository (src/run.py and src/solar.py).

The sizing layer of src/run.py is embedded over ℚ (Python floats become
exact rationals; every constant in play is an exact decimal).  The physical
model of src/solar.py is embedded over ℝ because it uses trigonometric
functions.  Python `int()` truncation toward zero is `pyInt`; `math.ceil`
is `Int.ceil`.  A Python float division that can raise `ZeroDivisionError`
at runtime is modelled with `Except` and an explicit zero test on the
denominator; a division whose denominator is guarded or never zero at its
call sites stays a plain division.
-/

namespace SolarModule

/-- Python `int()` applied to a rational: truncation toward zero. -/
def pyInt (q : ℚ) : ℤ := if 0 ≤ q then ⌊q⌋ else ⌈q⌉

/-- Kind of Python runtime failure that the modelled code can raise. -/
inductive PyError : Type
  | divisionByZero
deriving DecidableEq

/-! ### PROJECT_REFERENCE constants (src/run.py lines 9-21) -/

namespace PROJECT_REFERENCE

def ca_pv_ed_ac_capacity : ℚ := 38.9

def ca_pv_ed_dc_capacity : ℚ := 50.6

def ca_pv_ed_modules : ℚ := 80912

def ca_pv_ed_module_power : ℚ := 625

def ca_pv_ed_area : ℚ := 71.2

def ca_pv_ed_inverters : ℚ := 12

def ca_pv_ed_inverter_power : ℚ := 3600

def dc_ac_ratio : ℚ := 1.30

end PROJECT_REFERENCE

/-! ### Sizing formulas (src/run.py lines 36-96) -/

/-- `calculate_data_center_total_power` (src/run.py line 36): total power
including PUE. -/
def calculate_data_center_total_power (dc_capacity_mw : ℚ) (pue : ℚ := 1.2) : ℚ :=
  dc_capacity_mw * pue

/-- `calculate_solar_capacity_needed` (src/run.py line 40): required solar AC
capacity.  The Python body is `total_power_mw / capacity_factor`, which
raises `ZeroDivisionError` when the capacity factor is zero; the fallible
division is modelled with `Except`. -/
def calculate_solar_capacity_needed (total_power_mw : ℚ) (capacity_factor : ℚ := 0.20) :
    Except PyError ℚ :=
  if capacity_factor = 0 then Except.error PyError.divisionByZero
  else Except.ok (total_power_mw / capacity_factor)

/-- `calculate_dc_capacity` (src/run.py line 44): DC capacity from AC capacity. -/
def calculate_dc_capacity (ac_capacity_mw : ℚ) (dc_ac_ratio : ℚ := 1.30) : ℚ :=
  ac_capacity_mw * dc_ac_ratio

/-- `calculate_module_count` (src/run.py line 48): number of PV modules,
`int(ac_capacity_mw * modules_per_mw)` with the CA_PV_ED scaling factor.
The `module_power_w` parameter is unused, as in the source. -/
def calculate_module_count (ac_capacity_mw : ℚ) (module_power_w : ℚ := 625) : ℤ :=
  pyInt (ac_capacity_mw *
    (PROJECT_REFERENCE.ca_pv_ed_modules / PROJECT_REFERENCE.ca_pv_ed_ac_capacity))

/-- `calculate_inverter_count` (src/run.py line 62): `math.ceil` of the
reference-scaled inverter count.  The `inverter_power_kva` parameter is
unused, as in the source. -/
def calculate_inverter_count (ac_capacity_mw : ℚ) (inverter_power_kva : ℚ := 3600) : ℤ :=
  ⌈ac_capacity_mw *
    (PROJECT_REFERENCE.ca_pv_ed_inverters / PROJECT_REFERENCE.ca_pv_ed_ac_capacity)⌉

/-- `calculate_transformer_count` (src/run.py line 72):
`math.ceil(ac_capacity_mw / transformer_mva)`. -/
def calculate_transformer_count (ac_capacity_mw : ℚ) (transformer_mva : ℚ := 7.2) : ℤ :=
  ⌈ac_capacity_mw / transformer_mva⌉

/-- `calculate_power_station_count` (src/run.py line 76). -/
def calculate_power_station_count (ac_capacity_mw : ℚ) (station_capacity_mw : ℚ := 6.485) : ℤ :=
  ⌈ac_capacity_mw / station_capacity_mw⌉

/-! ### Sizing-layer lemmas and claims -/

/-- Truncation toward zero is monotone. -/
theorem pyInt_mono : Monotone pyInt := by
  intro a b hab
  unfold pyInt
  by_cases ha : 0 ≤ a
  · rw [if_pos ha, if_pos (ha.trans hab)]
    exact Int.floor_mono hab
  · rw [if_neg ha]
    by_cases hb : 0 ≤ b
    · rw [if_pos hb]
      exact le_trans (Int.ceil_le.mpr (by exact_mod_cast (not_le.mp ha).le))
        (Int.floor_nonneg.mpr hb)
    · rw [if_neg hb]
      exact Int.ceil_mono hab

/-- C1 counterexample: at solar_ac_capacity = 30.0 MWac the module count computed
by the code is not 62404 (it is 62400: `30.0 * 80912 / 38.9 = 62400` exactly). -/
theorem claim1_module_count_not_62404 : calculate_module_count 30 625 ≠ 62404 := by
  simp only [calculate_module_count, PROJECT_REFERENCE.ca_pv_ed_modules,
    PROJECT_REFERENCE.ca_pv_ed_ac_capacity, pyInt]
  rw [if_pos (by norm_num)]
  intro h
  rw [Int.floor_eq_iff] at h
  norm_num at h

/-- C1 (amended): for load_mw = 5.0, pue = 1.2, capacity_factor = 0.20 the sizing
pipeline yields total_power = 6.0 MW, solar_ac_capacity = 30.0 MWac,
solar_dc_capacity = 39.0 MWdc, module_count = 62400 (truncation of
30.0 * 80912 / 38.9, which is exactly 62400, not 62404), inverter_count = 10
(ceiling of 30.0 * 12 / 38.9) and transformer_count = 5 (ceiling of 30.0 / 7.2). -/
theorem claim1_sizing_pipeline :
    calculate_data_center_total_power 5 1.2 = 6 ∧
    calculate_solar_capacity_needed 6 0.20 = Except.ok 30 ∧
    calculate_dc_capacity 30 1.30 = 39 ∧
    calculate_module_count 30 625 = 62400 ∧
    calculate_inverter_count 30 3600 = 10 ∧
    calculate_transformer_count 30 7.2 = 5 := by
  refine ⟨by norm_num [calculate_data_center_total_power], ?_,
    by norm_num [calculate_dc_capacity], ?_, ?_, ?_⟩
  · rw [calculate_solar_capacity_needed, if_neg (by norm_num)]
    norm_num
  · simp only [calculate_module_count, PROJECT_REFERENCE.ca_pv_ed_modules,
      PROJECT_REFERENCE.ca_pv_ed_ac_capacity, pyInt]
    rw [if_pos (by norm_num), Int.floor_eq_iff]
    norm_num
  · simp only [calculate_inverter_count, PROJECT_REFERENCE.ca_pv_ed_inverters,
      PROJECT_REFERENCE.ca_pv_ed_ac_capacity]
    rw [Int.ceil_eq_iff]
    norm_num
  · rw [calculate_transformer_count, Int.ceil_eq_iff]
    norm_num

/-- C3: `calculate_module_count` scales the reference module count 80912 by
ac_mw / 38.9 and truncates toward zero; it is monotonically non-decreasing in
ac_mw for 0 < ac_mw, and at the reference AC capacity 38.9 it returns exactly
the reference module count 80912. -/
theorem claim3_module_count_scaling :
    (∀ ac_mw mp : ℚ, calculate_module_count ac_mw mp =
      pyInt (PROJECT_REFERENCE.ca_pv_ed_modules *
        (ac_mw / PROJECT_REFERENCE.ca_pv_ed_ac_capacity))) ∧
    (∀ a b mp : ℚ, 0 < a → a ≤ b →
      calculate_module_count a mp ≤ calculate_module_count b mp) ∧
    calculate_module_count 38.9 625 = 80912 := by
  refine ⟨?_, ?_, ?_⟩
  · intro ac_mw mp
    unfold calculate_module_count
    congr 1
    ring
  · intro a b mp ha0 hab
    unfold calculate_module_count
    exact pyInt_mono (by
      apply mul_le_mul_of_nonneg_right hab
      norm_num [PROJECT_REFERENCE.ca_pv_ed_modules, PROJECT_REFERENCE.ca_pv_ed_ac_capacity])
  · simp only [calculate_module_count, PROJECT_REFERENCE.ca_pv_ed_modules,
      PROJECT_REFERENCE.ca_pv_ed_ac_capacity, pyInt]
    rw [if_pos (by norm_num), Int.floor_eq_iff]
    norm_num

/-- C3 witness: monotonicity instantiated at 1 ≤ 2. -/
theorem claim3_witness : calculate_module_count 1 625 ≤ calculate_module_count 2 625 :=
  claim3_module_count_scaling.2.1 1 2 625 (by norm_num) (by norm_num)

/-- C4: `calculate_solar_capacity_needed` returns total_power_mw / capacity_factor
for every nonzero capacity factor, fails with the division-by-zero kind exactly
when the capacity factor is zero, and for capacity factors in (0, 1] multiplying
the returned value back by the capacity factor recovers total_power_mw exactly. -/
theorem claim4_solar_ac_capacity :
    (∀ tp cf : ℚ, cf ≠ 0 → calculate_solar_capacity_needed tp cf = Except.ok (tp / cf)) ∧
    (∀ tp cf : ℚ,
      calculate_solar_capacity_needed tp cf = Except.error PyError.divisionByZero ↔ cf = 0) ∧
    (∀ tp cf : ℚ, 0 < cf → cf ≤ 1 →
      calculate_solar_capacity_needed tp cf = Except.ok (tp / cf) ∧ tp / cf * cf = tp) := by
  refine ⟨?_, ?_, ?_⟩
  · intro tp cf hcf
    rw [calculate_solar_capacity_needed, if_neg hcf]
  · intro tp cf
    constructor
    · intro h
      by_contra hcf
      rw [calculate_solar_capacity_needed, if_neg hcf] at h
      exact Except.noConfusion h
    · intro h
      rw [calculate_solar_capacity_needed, if_pos h]
  · intro tp cf hcf0 hcf1
    refine ⟨by rw [calculate_solar_capacity_needed, if_neg (ne_of_gt hcf0)], ?_⟩
    field_simp

/-- C4 witness: at total_power = 6 and capacity_factor = 1/5 the call succeeds
and the round trip is exact. -/
theorem claim4_witness :
    calculate_solar_capacity_needed 6 (1 / 5) = Except.ok (6 / (1 / 5)) ∧
    (6 : ℚ) / (1 / 5) * (1 / 5) = 6 :=
  claim4_solar_ac_capacity.2.2 6 (1 / 5) (by norm_num) (by norm_num)

/-! ### src/solar.py: physical model over ℝ

The formula layer of src/solar.py (lines 31-124) uses `math.sin`, `math.cos`,
`math.tan`, `math.asin` and `math.atan2`, embedded with the corresponding
real functions of Mathlib.  `math.radians` and `math.degrees` are the usual
degree/radian conversions. -/

/-- Python `math.radians`. -/
noncomputable def radians (x : ℝ) : ℝ := x * Real.pi / 180

/-- Python `math.degrees`. -/
noncomputable def degrees (x : ℝ) : ℝ := x * 180 / Real.pi

/-- Python `math.atan2 y x`: the argument of the complex number x + y*i,
in (-π, π], with `atan2 0 0 = 0` as in Python. -/
noncomputable def atan2 (y x : ℝ) : ℝ := Complex.arg { re := x, im := y }

/-- `calculate_solar_position` (src/solar.py lines 31-53): (elevation, azimuth)
in degrees for a day of year, latitude and hour. -/
noncomputable def calculate_solar_position (day_of_year latitude hour : ℝ) : ℝ × ℝ :=
  let declination := 23.45 * Real.sin (radians (360 * (284 + day_of_year) / 365))
  let hour_angle := 15 * (hour - 12)
  let elevation := Real.arcsin
    (Real.sin (radians declination) * Real.sin (radians latitude) +
      Real.cos (radians declination) * Real.cos (radians latitude) *
        Real.cos (radians hour_angle))
  let azimuth := atan2 (Real.sin (radians hour_angle))
    (Real.cos (radians hour_angle) * Real.sin (radians latitude) -
      Real.tan (radians declination) * Real.cos (radians latitude))
  (degrees elevation, degrees azimuth)

/-- `calculate_irradiance_on_tilted_surface` (src/solar.py lines 55-73):
plane-of-array irradiance; returns 0 when the sun is at or below the horizon,
otherwise combines a direct term with a simplified diffuse term and floors the
result at 0. -/
noncomputable def calculate_irradiance_on_tilted_surface
    (ghi tilt_angle surface_azimuth solar_elevation solar_azimuth : ℝ) : ℝ :=
  if solar_elevation ≤ 0 then 0
  else
    let cos_incidence :=
      Real.sin (radians solar_elevation) * Real.cos (radians tilt_angle) +
        Real.cos (radians solar_elevation) * Real.sin (radians tilt_angle) *
          Real.cos (radians (solar_azimuth - surface_azimuth))
    let dni := ghi * max 0 cos_incidence / max 0.1 (Real.sin (radians solar_elevation))
    max 0 (dni * cos_incidence + ghi * 0.1 * (1 + Real.cos (radians tilt_angle)) / 2)

/-- `calculate_module_temperature` (src/solar.py lines 75-77): linear NOCT model. -/
noncomputable def calculate_module_temperature (ambient_temp irradiance : ℝ)
    (noct : ℝ := 45) : ℝ :=
  ambient_temp + (noct - 20) * irradiance / 800

/-- `calculate_power_output` (src/solar.py lines 79-83): power output with the
temperature derating factor. -/
noncomputable def calculate_power_output (irradiance module_temp module_power : ℝ)
    (temp_coeff : ℝ := -0.0028) : ℝ :=
  let temp_factor := 1 + temp_coeff * (module_temp - 25)
  let irradiance_factor := irradiance / 1000
  module_power * irradiance_factor * temp_factor

/-- `calculate_system_efficiency` (src/solar.py lines 85-87): returns 0 instead
of dividing when dc_power is not positive. -/
noncomputable def calculate_system_efficiency (ac_power dc_power : ℝ) : ℝ :=
  if dc_power > 0 then ac_power / dc_power * 100 else 0

/-- `calculate_performance_ratio` (src/solar.py lines 89-91): returns 0 instead
of dividing when theoretical_energy is not positive. -/
noncomputable def calculate_performance_ratio (actual_energy theoretical_energy : ℝ) : ℝ :=
  if theoretical_energy > 0 then actual_energy / theoretical_energy * 100 else 0

/-- `calculate_capacity_factor` (src/solar.py lines 93-95).  The Python body is
`(actual_energy / (rated_capacity * hours)) * 100` with no guard, which raises
`ZeroDivisionError` when `rated_capacity * hours` is zero; the fallible
division is modelled with `Except`. -/
noncomputable def calculate_capacity_factor (actual_energy rated_capacity hours : ℝ) :
    Except PyError ℝ :=
  if rated_capacity * hours = 0 then Except.error PyError.divisionByZero
  else Except.ok (actual_energy / (rated_capacity * hours) * 100)

/-- `calculate_specific_yield` (src/solar.py lines 97-99): kWh per kWp.  Its one
call site divides by the constant 50.6 * 1000, so the division is total there. -/
noncomputable def calculate_specific_yield (energy_output installed_capacity : ℝ) : ℝ :=
  energy_output / installed_capacity

/-- `calculate_shading_losses` (src/solar.py lines 101-108): 100 % below the
horizon, else a GCR-based factor with the elevation floored at 1 degree. -/
noncomputable def calculate_shading_losses (gcr solar_elevation : ℝ) : ℝ :=
  if solar_elevation ≤ 0 then 100
  else
    let shading_factor :=
      max 0 (1 - gcr / 100 * (1 / Real.tan (radians (max 1 solar_elevation))))
    (1 - shading_factor) * 100

/-- `calculate_inverter_efficiency` (src/solar.py lines 110-124): piecewise step
function of loading_ratio = dc_power / rated_power, upper-inclusive bands.
Every call site passes the nonzero rated power 3600.0. -/
noncomputable def calculate_inverter_efficiency (dc_power rated_power : ℝ) : ℝ :=
  let loading_ratio := dc_power / rated_power
  if loading_ratio ≤ 0.1 then 0.85
  else if loading_ratio ≤ 0.2 then 0.92
  else if loading_ratio ≤ 0.5 then 0.96
  else if loading_ratio ≤ 0.75 then 0.98
  else if loading_ratio ≤ 1.0 then 0.989
  else 0.985

/-! ### PROJECT_CONFIG constants (src/solar.py lines 10-25) and the monthly
pipeline `calculate_monthly_metrics` (src/solar.py lines 130-282), decomposed
into one definition per local variable of the Python function. -/

namespace PROJECT_CONFIG

def latitude : ℝ := 53.49

noncomputable def rated_power_ac : ℝ := 38.9

noncomputable def peak_power_dc : ℝ := 50.6

def tilt_angle : ℝ := 18.0

def azimuth_angle : ℝ := 0.0

def module_quantity : ℝ := 80912

def module_peak_power : ℝ := 625.0

def inverter_rated_power : ℝ := 3600.0

end PROJECT_CONFIG

/-- `days_in_month` (src/solar.py line 135). -/
def days_in_month : Fin 12 → ℕ := ![31, 28, 31, 30, 31, 30, 31, 31, 30, 31, 30, 31]

/-- `PROJECT_CONFIG["monthly_ghi"]` (src/solar.py line 23), kWh/m². -/
noncomputable def monthly_ghi : Fin 12 → ℝ :=
  ![28.1, 51.8, 100.0, 136.1, 172.1, 176.2, 179.7, 151.8, 102.0, 59.7, 30.7, 21.0]

/-- `PROJECT_CONFIG["monthly_temp"]` (src/solar.py line 24), °C. -/
noncomputable def monthly_temp : Fin 12 → ℝ :=
  ![-8.47, -2.16, -5.69, 2.17, 11.25, 14.75, 18.2, 15.98, 10.3, 3.13, -7.41, -12.95]

/-- `avg_day = 15 + (month_index * 30)` (src/solar.py line 146). -/
noncomputable def monthAvgDay (m : Fin 12) : ℝ := 15 + (m : ℕ) * 30

/-- `solar_elevation` for the month (src/solar.py line 147, hour fixed at 12). -/
noncomputable def monthSolarElevation (m : Fin 12) : ℝ :=
  (calculate_solar_position (monthAvgDay m) PROJECT_CONFIG.latitude 12).1

/-- `solar_azimuth` for the month (src/solar.py line 147). -/
noncomputable def monthSolarAzimuth (m : Fin 12) : ℝ :=
  (calculate_solar_position (monthAvgDay m) PROJECT_CONFIG.latitude 12).2

/-- `daily_ghi = monthly_ghi / days` (src/solar.py line 143). -/
noncomputable def monthDailyGhi (m : Fin 12) : ℝ := monthly_ghi m / days_in_month m

/-- `poa_irradiance` for the month (src/solar.py lines 170-173). -/
noncomputable def monthPoaIrradiance (m : Fin 12) : ℝ :=
  calculate_irradiance_on_tilted_surface (monthDailyGhi m) PROJECT_CONFIG.tilt_angle
    PROJECT_CONFIG.azimuth_angle (monthSolarElevation m) (monthSolarAzimuth m)

/-- `module_temp` for the month (src/solar.py line 175, default NOCT 45). -/
noncomputable def monthModuleTemp (m : Fin 12) : ℝ :=
  calculate_module_temperature (monthly_temp m) (monthPoaIrradiance m) 45

/-- `module_power` for the month (src/solar.py line 187, default temp_coeff). -/
noncomputable def monthModulePower (m : Fin 12) : ℝ :=
  calculate_power_output (monthPoaIrradiance m) (monthModuleTemp m)
    PROJECT_CONFIG.module_peak_power (-0.0028)

/-- `total_dc_power = (module_power * quantity) / 1000` in kW
(src/solar.py line 188). -/
noncomputable def monthTotalDcPower (m : Fin 12) : ℝ :=
  monthModulePower m * PROJECT_CONFIG.module_quantity / 1000

/-- `shading_losses = calculate_shading_losses(52.57, solar_elevation)`
(src/solar.py line 199): recorded in the `fixed_structure` metrics group. -/
noncomputable def monthShadingLosses (m : Fin 12) : ℝ :=
  calculate_shading_losses 52.57 (monthSolarElevation m)

/-- `inverter_efficiency` for the month (src/solar.py line 211, rated power
3600.0 kVA). -/
noncomputable def monthInverterEfficiency (m : Fin 12) : ℝ :=
  calculate_inverter_efficiency (monthTotalDcPower m) PROJECT_CONFIG.inverter_rated_power

/-- `total_ac_power = total_dc_power * inverter_efficiency`
(src/solar.py line 212): no shading factor enters the power path. -/
noncomputable def monthTotalAcPower (m : Fin 12) : ℝ :=
  monthTotalDcPower m * monthInverterEfficiency m

/-- `total_energy = total_ac_power * 24 * days / 1000` in MWh
(src/solar.py line 254). -/
noncomputable def monthTotalEnergy (m : Fin 12) : ℝ :=
  monthTotalAcPower m * 24 * days_in_month m / 1000

/-- `capacity_factor = calculate_capacity_factor(total_energy, 38.9, 24 * days)`
(src/solar.py line 255); the rated base is the constant
`PROJECT_CONFIG["rated_power_ac"]`.  The denominator 38.9 * (24 * days) is
never zero, so the Python call returns normally; the `Except.ok` payload is
extracted here. -/
noncomputable def monthCapacityFactor (m : Fin 12) : ℝ :=
  (calculate_capacity_factor (monthTotalEnergy m) PROJECT_CONFIG.rated_power_ac
    (24 * days_in_month m)).toOption.getD 0

/-- `specific_yield = calculate_specific_yield(total_energy * 1000, 50.6 * 1000)`
(src/solar.py line 256); the installed-capacity base is the constant
`PROJECT_CONFIG["peak_power_dc"]`. -/
noncomputable def monthSpecificYield (m : Fin 12) : ℝ :=
  calculate_specific_yield (monthTotalEnergy m * 1000) (PROJECT_CONFIG.peak_power_dc * 1000)

/-- `performance_ratio = calculate_performance_ratio(total_energy,
(monthly_ghi * 50.6 * 1000) / 1000)` (src/solar.py line 257). -/
noncomputable def monthPerformanceRatio (m : Fin 12) : ℝ :=
  calculate_performance_ratio (monthTotalEnergy m)
    (monthly_ghi m * PROJECT_CONFIG.peak_power_dc * 1000 / 1000)

/-- The fixed non-leap calendar has no empty month. -/
theorem days_in_month_pos : ∀ m : Fin 12, 0 < days_in_month m := by decide

/-- C2 counterexample: the month-0 capacity-factor and specific-yield bases are
the fixed constants 38.9 MWac and 50.6 MWdc of PROJECT_CONFIG, and that pair
cannot be a SizingEngine output for any plant: the sizing chain always sets
solar_dc_capacity = solar_ac_capacity * 1.30, while 38.9 * 1.30 = 50.57 ≠ 50.6. -/
theorem claim2_fixed_base_counterexample :
    monthCapacityFactor 0 =
      (calculate_capacity_factor (monthTotalEnergy 0) 38.9 (24 * 31)).toOption.getD 0 ∧
    monthSpecificYield 0 =
      calculate_specific_yield (monthTotalEnergy 0 * 1000) (50.6 * 1000) ∧
    calculate_dc_capacity 38.9 1.30 ≠ 50.6 := by
  refine ⟨?_, rfl, by norm_num [calculate_dc_capacity]⟩
  have h31 : ((days_in_month 0 : ℕ) : ℝ) = 31 := by norm_num [days_in_month]
  simp only [monthCapacityFactor, PROJECT_CONFIG.rated_power_ac, h31]

/-- C2 (amended): for every month index 0-11 the monthly metrics'
capacity_factor, specific_yield and performance_ratio are derived from that
month's total_energy_mwh using the fixed PROJECT_CONFIG capacities
rated_power_ac = 38.9 MWac and peak_power_dc = 50.6 MWdc as the rated bases —
constants of the reference plant, not SizingEngine-computed capacities of the
current plant. -/
theorem claim2_monthly_metric_bases :
    ∀ m : Fin 12,
      calculate_capacity_factor (monthTotalEnergy m) 38.9 (24 * days_in_month m) =
        Except.ok (monthCapacityFactor m) ∧
      monthCapacityFactor m =
        monthTotalEnergy m / (38.9 * (24 * days_in_month m)) * 100 ∧
      monthSpecificYield m = monthTotalEnergy m * 1000 / (50.6 * 1000) ∧
      monthPerformanceRatio m =
        calculate_performance_ratio (monthTotalEnergy m)
          (monthly_ghi m * 50.6 * 1000 / 1000) := by
  intro m
  have hd : (0 : ℝ) < days_in_month m := by exact_mod_cast days_in_month_pos m
  have hne : (38.9 : ℝ) * (24 * days_in_month m) ≠ 0 :=
    (mul_pos (by norm_num) (mul_pos (by norm_num) hd)).ne'
  have hcf : calculate_capacity_factor (monthTotalEnergy m) 38.9 (24 * days_in_month m) =
      Except.ok (monthTotalEnergy m / (38.9 * (24 * days_in_month m)) * 100) := by
    unfold calculate_capacity_factor
    rw [if_neg hne]
  have hbase : monthCapacityFactor m =
      monthTotalEnergy m / (38.9 * (24 * days_in_month m)) * 100 := by
    simp only [monthCapacityFactor, PROJECT_CONFIG.rated_power_ac]
    rw [hcf]
    rfl
  exact ⟨by rw [hcf, hbase], hbase, rfl, rfl⟩

/-- C7: in each monthly computation the shading loss is computed and recorded as
the metric `calculate_shading_losses 52.57 elevation` but is not subtracted
from the power path: total_ac_power equals total_dc_power times the inverter
efficiency with no shading factor, total_energy_mwh equals
total_ac_power * 24 * days / 1000, and the month's energy is a function of the
DC power and the day count alone — hence independent of the shading-loss
value. -/
theorem claim7_shading_outside_power_path :
    (∀ m : Fin 12, monthShadingLosses m =
      calculate_shading_losses 52.57 (monthSolarElevation m)) ∧
    (∀ m : Fin 12, monthTotalAcPower m =
      monthTotalDcPower m *
        calculate_inverter_efficiency (monthTotalDcPower m) 3600.0) ∧
    (∀ m : Fin 12, monthTotalEnergy m =
      monthTotalAcPower m * 24 * days_in_month m / 1000) ∧
    (∀ m₁ m₂ : Fin 12, monthTotalDcPower m₁ = monthTotalDcPower m₂ →
      days_in_month m₁ = days_in_month m₂ →
      monthTotalEnergy m₁ = monthTotalEnergy m₂) := by
  refine ⟨fun m => rfl, fun m => rfl, fun m => rfl, ?_⟩
  intro m₁ m₂ hdc hdays
  simp only [monthTotalEnergy, monthTotalAcPower, monthInverterEfficiency, hdc, hdays]

/-- C7 witness: the independence statement instantiated at month 0. -/
theorem claim7_witness : monthTotalEnergy 0 = monthTotalEnergy 0 :=
  claim7_shading_outside_power_path.2.2.2 0 0 rfl rfl

/-! ### Claims on the solar.py formula layer -/

/-- C5: `calculate_inverter_efficiency` is a step function of
loading_ratio = dc_power / rated_power with upper-inclusive band boundaries:
0.85 at loading ratio 0.10, 0.92 at 0.10001, 0.96 on (0.2, 0.5], 0.98 on
(0.5, 0.75], 0.989 at exactly 1.0, and 0.985 at 1.5 and at every ratio
above 1.0. -/
theorem claim5_inverter_efficiency_step :
    (∀ dc rp : ℝ, calculate_inverter_efficiency dc rp =
      calculate_inverter_efficiency (dc / rp) 1) ∧
    calculate_inverter_efficiency 0.10 1 = 0.85 ∧
    calculate_inverter_efficiency 0.10001 1 = 0.92 ∧
    (∀ r : ℝ, 0.2 < r → r ≤ 0.5 → calculate_inverter_efficiency r 1 = 0.96) ∧
    (∀ r : ℝ, 0.5 < r → r ≤ 0.75 → calculate_inverter_efficiency r 1 = 0.98) ∧
    calculate_inverter_efficiency 1.0 1 = 0.989 ∧
    (∀ r : ℝ, 1 < r → calculate_inverter_efficiency r 1 = 0.985) ∧
    calculate_inverter_efficiency 1.5 1 = 0.985 := by
  refine ⟨?_, ?_, ?_, ?_, ?_, ?_, ?_, ?_⟩
  · intro dc rp
    simp only [calculate_inverter_efficiency, div_one]
  · simp only [calculate_inverter_efficiency, div_one]
    norm_num
  · simp only [calculate_inverter_efficiency, div_one]
    norm_num
  · intro r h1 h2
    simp only [calculate_inverter_efficiency, div_one]
    rw [if_neg (by linarith), if_neg (by linarith), if_pos h2]
  · intro r h1 h2
    simp only [calculate_inverter_efficiency, div_one]
    rw [if_neg (by linarith), if_neg (by linarith), if_neg (by linarith), if_pos h2]
  · simp only [calculate_inverter_efficiency, div_one]
    norm_num
  · intro r h1
    simp only [calculate_inverter_efficiency, div_one]
    rw [if_neg (by linarith), if_neg (by linarith), if_neg (by linarith),
      if_neg (by linarith), if_neg (by linarith)]
  · simp only [calculate_inverter_efficiency, div_one]
    norm_num

/-- C5 witness: the band statements instantiated at loading ratios 0.3, 0.6
and 1.2. -/
theorem claim5_witness :
    calculate_inverter_efficiency 0.3 1 = 0.96 ∧
    calculate_inverter_efficiency 0.6 1 = 0.98 ∧
    calculate_inverter_efficiency 1.2 1 = 0.985 :=
  ⟨claim5_inverter_efficiency_step.2.2.2.1 0.3 (by norm_num) (by norm_num),
   claim5_inverter_efficiency_step.2.2.2.2.1 0.6 (by norm_num) (by norm_num),
   claim5_inverter_efficiency_step.2.2.2.2.2.2.1 1.2 (by norm_num)⟩

/-- C6: `calculate_irradiance_on_tilted_surface` returns exactly 0 whenever the
solar elevation is at most 0, for every GHI / tilt / azimuth combination, and
its result is nonnegative for every input. -/
theorem claim6_poa_irradiance :
    (∀ ghi tilt saz elev az : ℝ, elev ≤ 0 →
      calculate_irradiance_on_tilted_surface ghi tilt saz elev az = 0) ∧
    (∀ ghi tilt saz elev az : ℝ,
      0 ≤ calculate_irradiance_on_tilted_surface ghi tilt saz elev az) := by
  constructor
  · intro ghi tilt saz elev az h
    unfold calculate_irradiance_on_tilted_surface
    rw [if_pos h]
  · intro ghi tilt saz elev az
    unfold calculate_irradiance_on_tilted_surface
    split_ifs
    · exact le_refl 0
    · exact le_max_left 0 _

/-- C6 witness: the zero branch instantiated at a sun 5 degrees below the
horizon with nonzero GHI, tilt and azimuths. -/
theorem claim6_witness :
    calculate_irradiance_on_tilted_surface 100 18 0 (-5) 40 = 0 :=
  claim6_poa_irradiance.1 100 18 0 (-5) 40 (by norm_num)

/-- C8 counterexample: dc_power = -5 is non-positive and rated_power = -10 is
nonzero, yet the efficiency is 0.96 (the loading ratio is 0.5), not 0.85. -/
theorem claim8_negative_rated_counterexample :
    (-5 : ℝ) ≤ 0 ∧ (-10 : ℝ) ≠ 0 ∧
    calculate_inverter_efficiency (-5) (-10) = 0.96 ∧ (0.96 : ℝ) ≠ 0.85 := by
  refine ⟨by norm_num, by norm_num, ?_, by norm_num⟩
  unfold calculate_inverter_efficiency
  norm_num

/-- C8 (amended): for every dc_power and nonzero rated_power the efficiency is
one of the six constants 0.85, 0.92, 0.96, 0.98, 0.989, 0.985, hence lies in
[0.85, 0.989]; and a non-positive dc_power with a positive rated_power yields
0.85 (the band of loading ratios at most 0.1) rather than an error. -/
theorem claim8_efficiency_range :
    (∀ dc rp : ℝ, rp ≠ 0 →
      (calculate_inverter_efficiency dc rp = 0.85 ∨
       calculate_inverter_efficiency dc rp = 0.92 ∨
       calculate_inverter_efficiency dc rp = 0.96 ∨
       calculate_inverter_efficiency dc rp = 0.98 ∨
       calculate_inverter_efficiency dc rp = 0.989 ∨
       calculate_inverter_efficiency dc rp = 0.985) ∧
      0.85 ≤ calculate_inverter_efficiency dc rp ∧
      calculate_inverter_efficiency dc rp ≤ 0.989) ∧
    (∀ dc rp : ℝ, dc ≤ 0 → 0 < rp → calculate_inverter_efficiency dc rp = 0.85) := by
  constructor
  · intro dc rp _
    simp only [calculate_inverter_efficiency]
    split_ifs <;> norm_num
  · intro dc rp hdc hrp
    have h0 : dc / rp ≤ 0 := div_nonpos_iff.mpr (Or.inr ⟨hdc, hrp.le⟩)
    unfold calculate_inverter_efficiency
    rw [if_pos (by linarith : dc / rp ≤ 0.1)]

/-- C8 witness: the amended statement instantiated at dc_power = 0 and
dc_power = -7 with the plant's rated power 3600. -/
theorem claim8_witness :
    calculate_inverter_efficiency 0 3600 = 0.85 ∧
    calculate_inverter_efficiency (-7) 3600 = 0.85 ∧
    0.85 ≤ calculate_inverter_efficiency 5000 3600 ∧
    calculate_inverter_efficiency 5000 3600 ≤ 0.989 :=
  ⟨claim8_efficiency_range.2 0 3600 (by norm_num) (by norm_num),
   claim8_efficiency_range.2 (-7) 3600 (by norm_num) (by norm_num),
   (claim8_efficiency_range.1 5000 3600 (by norm_num)).2.1,
   (claim8_efficiency_range.1 5000 3600 (by norm_num)).2.2⟩

/-- C9: `calculate_capacity_factor` fails with the division-by-zero kind exactly
when rated_capacity * hours is zero, while `calculate_performance_ratio` and
`calculate_system_efficiency` return 0 for every non-positive denominator
instead of failing. -/
theorem claim9_division_guard_contrast :
    (∀ e r h : ℝ, r * h = 0 →
      calculate_capacity_factor e r h = Except.error PyError.divisionByZero) ∧
    (∀ e r h : ℝ, r * h ≠ 0 →
      calculate_capacity_factor e r h = Except.ok (e / (r * h) * 100)) ∧
    (∀ a t : ℝ, t ≤ 0 → calculate_performance_ratio a t = 0) ∧
    (∀ ac dc : ℝ, dc ≤ 0 → calculate_system_efficiency ac dc = 0) := by
  refine ⟨?_, ?_, ?_, ?_⟩
  · intro e r h hz
    unfold calculate_capacity_factor
    rw [if_pos hz]
  · intro e r h hz
    unfold calculate_capacity_factor
    rw [if_neg hz]
  · intro a t ht
    unfold calculate_performance_ratio
    rw [if_neg (not_lt.mpr ht)]
  · intro ac dc hdc
    unfold calculate_system_efficiency
    rw [if_neg (not_lt.mpr hdc)]

/-- C9 witness: the contrast instantiated at concrete inputs: a zero rated
capacity raises, a nonzero one returns, and the two guarded ratios return 0
on non-positive denominators. -/
theorem claim9_witness :
    calculate_capacity_factor 5 0 744 = Except.error PyError.divisionByZero ∧
    calculate_capacity_factor 5 1 744 = Except.ok (5 / (1 * 744) * 100) ∧
    calculate_performance_ratio 5 0 = 0 ∧
    calculate_system_efficiency 5 (-1) = 0 :=
  ⟨claim9_division_guard_contrast.1 5 0 744 (by norm_num),
   claim9_division_guard_contrast.2.1 5 1 744 (by norm_num),
   claim9_division_guard_contrast.2.2.1 5 0 (by norm_num),
   claim9_division_guard_contrast.2.2.2 5 (-1) (by norm_num)⟩

/-- C10: with any NOCT above 20 (in particular the default 45),
`calculate_module_temperature` is strictly increasing in the irradiance, is at
least the ambient temperature for every nonnegative irradiance, and equals the
ambient temperature exactly when the irradiance is zero. -/
theorem claim10_module_temperature_noct :
    ∀ noct ambient : ℝ, 20 < noct →
      StrictMono (fun irradiance => calculate_module_temperature ambient irradiance noct) ∧
      (∀ irr : ℝ, 0 ≤ irr → ambient ≤ calculate_module_temperature ambient irr noct) ∧
      (∀ irr : ℝ, 0 ≤ irr →
        (calculate_module_temperature ambient irr noct = ambient ↔ irr = 0)) := by
  intro noct ambient h
  have h20 : 0 < noct - 20 := by linarith
  refine ⟨?_, ?_, ?_⟩
  · intro a b hab
    simp only [calculate_module_temperature]
    have hm : (noct - 20) * a < (noct - 20) * b := mul_lt_mul_of_pos_left hab h20
    linarith
  · intro irr hirr
    simp only [calculate_module_temperature]
    have hnn : 0 ≤ (noct - 20) * irr / 800 := by positivity
    linarith
  · intro irr hirr
    simp only [calculate_module_temperature]
    constructor
    · intro heq
      have h9 : (noct - 20) * irr = 0 := by linarith
      rcases mul_eq_zero.mp h9 with hc | hc
      · exact absurd hc (by linarith)
      · exact hc
    · intro h0
      rw [h0]
      ring

/-- C10 witness: the default NOCT 45 with ambient temperature 10 °C: strict
monotonicity in the irradiance, and equality with the ambient temperature at
zero irradiance. -/
theorem claim10_witness :
    StrictMono (fun irradiance => calculate_module_temperature 10 irradiance 45) ∧
    (calculate_module_temperature 10 0 45 = 10 ↔ (0 : ℝ) = 0) :=
  ⟨(claim10_module_temperature_noct 45 10 (by norm_num)).1,
   (claim10_module_temperature_noct 45 10 (by norm_num)).2.2 0 (by norm_num)⟩

end SolarModule
